import Mathlib

/-!
Verification of the request-routing and proxy-forwarding logic of the
fund-calculator proxy server (`proxy-server.js`).

The JavaScript source is shallowly embedded: strings are Lean `String`s
(operated on through their underlying `List Char` where the source uses
`split`, `startsWith`, `path.extname`, …), the Node response object is a
small state machine recording whether headers have been flushed (Node's
`setHeader`/`writeHead` raise `ERR_HTTP_HEADERS_SENT` once they have), the
filesystem is a map from paths to optional file contents (a path is
`fs.access`-ible exactly when it is readable), and the single upstream
interaction of a proxied request is an explicit event (a response, or a
connection error).
-/

namespace FundProxy

/-! ## Character-level string helpers (JS `split`, `startsWith`, …) -/

/-- Models JS `s.split(sep)` for a single-character separator, on the
character list: accumulator `acc` holds the current segment reversed. -/
def splitOnCharAux (sep : Char) : List Char → List Char → List (List Char)
  | [], acc => [acc.reverse]
  | c :: rest, acc =>
    if c = sep then acc.reverse :: splitOnCharAux sep rest []
    else splitOnCharAux sep rest (c :: acc)

def splitOnChar (sep : Char) (cs : List Char) : List (List Char) :=
  splitOnCharAux sep cs []

/-- JS `pathname.split('/')`, as a list of strings. -/
def jsSplitSlash (s : String) : List String :=
  (splitOnChar '/' s.data).map String.mk

/-- JS `s.startsWith(p)`. -/
def jsStartsWith (s p : String) : Bool :=
  p.data.isPrefixOf s.data

/-! ## JS `parseInt(s, 10)` and the pageSize computation -/

/-- Whitespace skipped by JS `parseInt`. -/
def isJsSpace (c : Char) : Bool :=
  c = ' ' || c = '\t' || c = '\n' || c = '\r'

/-- Numeric value of a list of decimal digits. -/
def digitsVal (ds : List Char) : Nat :=
  ds.foldl (fun a c => a * 10 + (c.toNat - 48)) 0

/-- Result of JS `parseInt`: `NaN`, an overflow to `±Infinity` (the parsed
digits exceed the double range), or an integer. -/
inductive ParseIntResult where
  | nan
  | inf
  | negInf
  | num (d : Int)
deriving DecidableEq

/-- JS `parseInt(s, 10)`: skip whitespace, optional sign, maximal digit
run; `NaN` when no digits.  A digit run whose value reaches `2 ^ 1024`
overflows the double range and yields `±Infinity` (the model uses the
threshold `2 ^ 1024`; the exact IEEE rounding boundary differs from it
only within `2 ^ 971`, far beyond every value these claims involve). -/
def parseIntChars (cs : List Char) : ParseIntResult :=
  let cs := cs.dropWhile isJsSpace
  let signed : Bool × List Char :=
    match cs with
    | '-' :: r => (true, r)
    | '+' :: r => (false, r)
    | _ => (false, cs)
  let ds := signed.2.takeWhile Char.isDigit
  if ds.isEmpty then .nan
  else
    let n := digitsVal ds
    if 2 ^ 1024 ≤ n then (if signed.1 then .negInf else .inf)
    else .num (if signed.1 then -(n : Int) else (n : Int))

/-- `parseInt(parsedUrl.query.days, 10)`: an absent parameter is JS
`undefined`, and `parseInt(undefined, 10)` is `NaN`. -/
def parseIntJS : Option String → ParseIntResult
  | none => .nan
  | some s => parseIntChars s.data

/-- `Number.isFinite(days) && days > 0 ? Math.min(Math.max(days, 60), 365) : 120`. -/
def pageSizeOf (daysParam : Option String) : Int :=
  match parseIntJS daysParam with
  | .num d => if 0 < d then min (max d 60) 365 else 120
  | _ => 120

/-! ## Fund-code extraction and validation -/

/-- JS regex test `/^\d{6}$/.test(s)`: exactly six ASCII digits. -/
def isSixDigits (s : String) : Bool :=
  s.data.length == 6 && s.data.all Char.isDigit

/-- `segments.pop()` on the (always nonempty) result of `split('/')`. -/
def lastSeg (segs : List String) : String :=
  (segs.getLast?).getD ""

/-- `segments.pop() || segments.pop()`: the last segment, or — when it is
the empty string (falsy) — the one before it.  A second `pop` on an
exhausted array yields `undefined`; both `undefined` and `""` fail the
truthiness guard below identically, so the model returns `""` there. -/
def popPop (segs : List String) : String :=
  match segs.getLast? with
  | none => ""
  | some last => if last = "" then (segs.dropLast.getLast?).getD "" else last

/-! ## Target URLs -/

/-- Snapshot target: `https://fundgz.1234567.com.cn/js/${fundCode}.js`. -/
def snapshotUrl (fundCode : String) : String :=
  "https://fundgz.1234567.com.cn/js/" ++ fundCode ++ ".js"

/-- History target, with `FCODE` and the clamped `pageSize` interpolated. -/
def historyUrl (fundCode : String) (pageSize : Int) : String :=
  "https://fundmobapi.eastmoney.com/FundMNewApi/FundMNHisNetList?" ++
    ("FCODE=" ++ fundCode ++ "&pageIndex=1&pageSize=" ++ toString pageSize ++
      "&appType=ttjj&product=EFund&plat=Iphone&version=6.3.8&deviceid=00000000-0000-0000-0000-000000000000")

/-! ## url.parse: hostname/port extraction, scheme selection -/

/-- Characters after the first `//` of a URL (start of the authority). -/
def afterSlashes : List Char → List Char
  | [] => []
  | [_] => []
  | a :: b :: rest =>
    if a = '/' ∧ b = '/' then rest else afterSlashes (b :: rest)

/-- The `host:port` part of an absolute URL: the authority runs from the
first `//` to the next `/`. -/
def hostPortChars (u : String) : List Char :=
  (afterSlashes u.data).takeWhile (fun c => !(c == '/'))

/-- `url.parse(u).port`: the part of the authority after a `:`; `null`
(here `none`) when the authority has no `:`. -/
def urlPortOf (u : String) : Option String :=
  let hp := hostPortChars u
  if hp.contains ':' then some (String.mk (((splitOnChar ':' hp).getLast?).getD []))
  else none

inductive Scheme where
  | https
  | http
deriving DecidableEq

/-- `const protocol = targetUrl.startsWith('https') ? https : http`. -/
def schemeOf (targetUrl : String) : Scheme :=
  if jsStartsWith targetUrl "https" then .https else .http

/-- `url.parse(targetUrl).port || (targetUrl.startsWith('https') ? 443 : 80)`:
an absent (or empty, hence falsy) port string falls back on the default
for the scheme. -/
def proxyPort (targetUrl : String) : Nat :=
  match urlPortOf targetUrl with
  | some p => if p = "" then (if jsStartsWith targetUrl "https" then 443 else 80)
              else digitsVal p.data
  | none => if jsStartsWith targetUrl "https" then 443 else 80

/-! ## The Node response object as a state machine -/

/-- The mutable state of `res`: whether the head has been written (after
which Node refuses further header mutation), plus status, accumulated
headers, body bytes, and whether the stream has ended. -/
structure ResState where
  headersSent : Bool
  status : Nat
  headers : List (String × String)
  body : String
  ended : Bool
deriving DecidableEq

def freshRes : ResState := ⟨false, 0, [], "", false⟩

/-- The message of the `ERR_HTTP_HEADERS_SENT` error Node raises. -/
def headersSentError : String :=
  "ERR_HTTP_HEADERS_SENT: Cannot set headers after they are sent to the client"

/-- `res.setHeader(k, v)`: raises once the head has been written. -/
def setHeader (res : ResState) (k v : String) : Except String ResState :=
  if res.headersSent then .error headersSentError
  else .ok { res with headers := res.headers ++ [(k, v)] }

/-- `setCORSHeaders(res)` (proxy-server.js, lines 29–34). -/
def setCORSHeaders (res : ResState) : Except String ResState := do
  let res ← setHeader res "Access-Control-Allow-Origin" "*"
  let res ← setHeader res "Access-Control-Allow-Methods" "GET, POST, PUT, DELETE, OPTIONS"
  let res ← setHeader res "Access-Control-Allow-Headers" "Content-Type, Authorization, X-Requested-With"
  setHeader res "Access-Control-Allow-Credentials" "true"

/-- The four header fields `setCORSHeaders` sets. -/
def corsHeaders : List (String × String) :=
  [("Access-Control-Allow-Origin", "*"),
   ("Access-Control-Allow-Methods", "GET, POST, PUT, DELETE, OPTIONS"),
   ("Access-Control-Allow-Headers", "Content-Type, Authorization, X-Requested-With"),
   ("Access-Control-Allow-Credentials", "true")]

/-- `res.writeHead(status, hdrs)`: flushes the head; raises when it has
already been flushed. -/
def writeHead (res : ResState) (status : Nat) (hdrs : List (String × String)) :
    Except String ResState :=
  if res.headersSent then .error headersSentError
  else .ok { res with status := status, headers := res.headers ++ hdrs, headersSent := true }

/-- `res.end(chunk)`. -/
def endRes (res : ResState) (chunk : String) : ResState :=
  { res with body := res.body ++ chunk, headersSent := true, ended := true }

/-! ## JSON error body -/

/-- `JSON.stringify` escaping for the string values used here (quote,
backslash and the common control characters; the fixed message and Node
error texts contain nothing further). -/
def jsonEscape (s : String) : String :=
  String.mk (s.data.foldr
    (fun c acc =>
      if c = '"' then '\\' :: '"' :: acc
      else if c = '\\' then '\\' :: '\\' :: acc
      else if c = '\n' then '\\' :: 'n' :: acc
      else if c = '\r' then '\\' :: 'r' :: acc
      else if c = '\t' then '\\' :: 't' :: acc
      else c :: acc) [])

/-- `JSON.stringify` of an object with string values, keys in insertion
order. -/
def jsonObj (fields : List (String × String)) : String :=
  "\x7b" ++
    String.intercalate ","
      (fields.map (fun kv => "\"" ++ jsonEscape kv.1 ++ "\":\"" ++ jsonEscape kv.2 ++ "\"")) ++
    "\x7d"

/-- The fixed message of the proxy error body (`代理请求失败`). -/
def proxyFailedMessage : String := "代理请求失败"

/-- `JSON.stringify({ error: '代理请求失败', message: err.message })`. -/
def proxyErrorBody (errMessage : String) : String :=
  jsonObj [("error", proxyFailedMessage), ("message", errMessage)]

/-! ## proxyRequest: the two event handlers -/

/-- The `proxyReq.on('error')` handler (lines 60–65): log, set CORS
headers, write a 500 head with a JSON content type, end with the JSON
error body.  Each `res` operation raises once the head has been sent. -/
def proxyOnError (res : ResState) (errMessage : String) : Except String ResState := do
  let res ← setCORSHeaders res
  let res ← writeHead res 500 [("Content-Type", "application/json")]
  .ok (endRes res (proxyErrorBody errMessage))

/-- The `protocol.request` response callback (lines 54–58): set CORS
headers, mirror the upstream status and headers, then pipe the body. -/
def proxyOnResponse (res : ResState) (status : Nat)
    (upstreamHeaders : List (String × String)) : Except String ResState := do
  let res ← setCORSHeaders res
  writeHead res status upstreamHeaders

/-- The single upstream interaction of one proxied request: either the
upstream answers (status, headers, body — streamed to completion), or the
connection fails before any response arrives. -/
inductive UpstreamEvent where
  | response (status : Nat) (headers : List (String × String)) (body : String)
  | connectError (message : String)

/-- Outcome of `proxyRequest` on the client response state for one
upstream event. -/
def proxyRequestOutcome (res : ResState) (ev : UpstreamEvent) : Except String ResState :=
  match ev with
  | .response s h b => do
      let r ← proxyOnResponse res s h
      .ok (endRes r b)
  | .connectError m => proxyOnError res m

/-! ## Static files -/

/-- The MIME table `mimeTypes` (lines 10–26). -/
def mimeTypes : List (String × String) :=
  [(".html", "text/html"), (".js", "text/javascript"), (".css", "text/css"),
   (".json", "application/json"), (".png", "image/png"), (".jpg", "image/jpg"),
   (".gif", "image/gif"), (".svg", "image/svg+xml"), (".wav", "audio/wav"),
   (".mp4", "video/mp4"), (".woff", "application/font-woff"),
   (".ttf", "application/font-ttf"), (".eot", "application/vnd.ms-fontobject"),
   (".otf", "application/font-otf"), (".wasm", "application/wasm")]

/-- `mimeTypes[ext] || 'text/plain'`. -/
def mimeLookup (ext : String) : String :=
  (((mimeTypes.find? (fun kv => kv.1 == ext)).map Prod.snd)).getD "text/plain"

/-- The suffix of a basename starting at its last `.`, ignoring a `.` in
first position (Node treats a leading dot as a dotfile marker, not an
extension separator). -/
def lastDotSuffix : List Char → Option (List Char)
  | [] => none
  | c :: rest =>
    match lastDotSuffix rest with
    | some s => some s
    | none => if c = '.' then some (c :: rest) else none

/-- Node `path.extname(p)`: the extension of the last path segment; empty
when the basename has no dot past its first character, or is `..`. -/
def extname (p : String) : String :=
  let base := ((splitOnChar '/' p.data).getLast?).getD []
  if base = ['.', '.'] then ""
  else
    match base with
    | [] => ""
    | _ :: rest =>
      match lastDotSuffix rest with
      | some s => String.mk s
      | none => ""

/-- A filesystem: contents of the file at each path, `none` when absent
or unreadable (`fs.access` succeeds exactly on the readable paths; the
spec folds a read failure after a successful access into not-found as
well). -/
def FileSystem : Type := String → Option String

/-- A fully materialised client response. -/
structure Response where
  status : Nat
  headers : List (String × String)
  body : String
deriving DecidableEq

/-- The `404` / `File not found` response (no CORS headers are set on
this path in the source). -/
def notFoundResponse : Response :=
  ⟨404, [("Content-Type", "text/plain")], "File not found"⟩

/-- `serveStaticFile` (lines 71–86): read the file; on a read error
respond 404, otherwise 200 with the MIME type of the extension and the
file bytes, CORS headers set. -/
def serveStaticFile (fs : FileSystem) (filePath : String) : Response :=
  match fs filePath with
  | none => notFoundResponse
  | some fileData =>
    ⟨200, corsHeaders ++ [("Content-Type", mimeLookup (extname filePath))], fileData⟩

/-- The static branch of the request handler (lines 128–148):
`fs.access` on the resolved path; when it is missing and has no
extension, retry once with `.html` appended; otherwise 404. -/
def resolveStatic (fs : FileSystem) (filePath : String) : Response :=
  match fs filePath with
  | some _ => serveStaticFile fs filePath
  | none =>
    if extname filePath = "" then
      match fs (filePath ++ ".html") with
      | some _ => serveStaticFile fs (filePath ++ ".html")
      | none => notFoundResponse
    else notFoundResponse

/-! ## The request router -/

/-- An incoming request: method, parsed pathname, and the `days` query
parameter (the only one the server reads), `none` when absent. -/
structure Request where
  method : String
  pathname : String
  queryDays : Option String

/-- What the router decides for a request: answer directly (the OPTIONS
branch), delegate to `proxyRequest` with a target URL, or fall through to
static-file resolution with a joined file path. -/
inductive HandlerResult where
  | direct (r : Response)
  | proxied (targetUrl : String)
  | staticFile (filePath : String)
deriving DecidableEq

/-- `path.join(dir, p)` for the joins the handler performs (`p` is either
the literal default document or a request pathname; dot-segment
normalisation never applies to the paths the claims concern and is
elided). -/
def pathJoin (dir p : String) : String :=
  if jsStartsWith p "/" then dir ++ p else dir ++ "/" ++ p

/-- Line 125: `path.join(__dirname, pathname === '/' ? 'fund_calculator.html' : pathname)`. -/
def staticPath (dirname pathname : String) : String :=
  pathJoin dirname (if pathname = "/" then "fund_calculator.html" else pathname)

/-- The request handler (lines 89–148), up to the point where the
response is determined: OPTIONS short-circuit, then the two proxy routes
guarded by the six-digit test, then static resolution. -/
def handle (dirname : String) (req : Request) : HandlerResult :=
  if req.method = "OPTIONS" then
    .direct ⟨200, corsHeaders, ""⟩
  else if jsStartsWith req.pathname "/api/fund/history/" then
    let fundCode := popPop (jsSplitSlash req.pathname)
    if !(fundCode == "") && isSixDigits fundCode then
      .proxied (historyUrl fundCode (pageSizeOf req.queryDays))
    else
      .staticFile (staticPath dirname req.pathname)
  else if jsStartsWith req.pathname "/api/fund/" then
    let fundCode := lastSeg (jsSplitSlash req.pathname)
    if !(fundCode == "") && isSixDigits fundCode then
      .proxied (snapshotUrl fundCode)
    else
      .staticFile (staticPath dirname req.pathname)
  else
    .staticFile (staticPath dirname req.pathname)

/-- The fund code the handler extracts from an API pathname (`pop() ||
pop()` on the history route, `pop()` on the snapshot route). -/
def extractFundCode (pathname : String) : String :=
  if jsStartsWith pathname "/api/fund/history/" then popPop (jsSplitSlash pathname)
  else lastSeg (jsSplitSlash pathname)

/-- The response of the whole server to one request, given the filesystem
and — when the request is proxied — the upstream event.  A proxied
request starts from a fresh response state, so its outcome never raises;
the `Except` layer only records Node's headers-already-sent exception. -/
def serverResponse (dirname : String) (fs : FileSystem) (req : Request)
    (ev : UpstreamEvent) : Except String Response :=
  match handle dirname req with
  | .direct r => .ok r
  | .staticFile p => .ok (resolveStatic fs p)
  | .proxied _ =>
    (proxyRequestOutcome freshRes ev).map (fun r => ⟨r.status, r.headers, r.body⟩)

/-! ## Helper lemmas: prefixes, splitting, characters -/

theorem isPrefixOf_append_self : ∀ (l m : List Char), l.isPrefixOf (l ++ m) = true
  | [], _ => by simp [List.isPrefixOf]
  | c :: l, m => by simp [List.isPrefixOf, isPrefixOf_append_self l m]

theorem isPrefixOf_append_same : ∀ (xs p l : List Char),
    (xs ++ p).isPrefixOf (xs ++ l) = p.isPrefixOf l
  | [], _, _ => by simp
  | c :: xs, p, l => by simp [List.isPrefixOf, isPrefixOf_append_same xs p l]

theorem afterSlashes_cons_cons (a b : Char) (l : List Char) :
    afterSlashes (a :: b :: l) = if a = '/' ∧ b = '/' then l else afterSlashes (b :: l) := rfl

theorem isPrefixOf_append_of_isPrefixOf : ∀ (p l m : List Char),
    p.isPrefixOf l = true → p.isPrefixOf (l ++ m) = true
  | [], _, _, _ => by simp [List.isPrefixOf]
  | _ :: _, [], _, h => by simp [List.isPrefixOf] at h
  | a :: p, b :: l, m, h => by
    simp only [List.isPrefixOf, Bool.and_eq_true] at h ⊢
    exact ⟨h.1, isPrefixOf_append_of_isPrefixOf p l m h.2⟩

theorem digit_isPrefixOf_h_false (m : List Char) : ∀ (l : List Char),
    l.all Char.isDigit = true → List.isPrefixOf ('h' :: m) l = false
  | [], _ => by simp [List.isPrefixOf]
  | c :: l, h => by
    simp only [List.all_cons, Bool.and_eq_true] at h
    have hc : ('h' == c) = false := by
      refine beq_eq_false_iff_ne.mpr (fun e => ?_)
      rw [← e] at h
      exact absurd h.1 (by decide)
    simp [List.isPrefixOf, hc]

theorem all_digits_no_slash (l : List Char) (h : l.all Char.isDigit = true) :
    l.all (fun c => !(c == '/')) = true := by
  rw [List.all_eq_true] at h ⊢
  intro c hc
  have hd := h c hc
  simp only [Bool.not_eq_true', beq_eq_false_iff_ne]
  intro e
  rw [e] at hd
  exact absurd hd (by decide)

theorem splitOnCharAux_all_nosep (sep : Char) : ∀ (cs acc : List Char),
    cs.all (fun c => !(c == sep)) = true →
    splitOnCharAux sep cs acc = [acc.reverse ++ cs]
  | [], acc, _ => by simp [splitOnCharAux]
  | c :: cs, acc, h => by
    simp only [List.all_cons, Bool.and_eq_true, Bool.not_eq_true', beq_eq_false_iff_ne] at h
    rw [splitOnCharAux, if_neg h.1,
      splitOnCharAux_all_nosep sep cs (c :: acc) (by simpa [List.all_eq_true, beq_eq_false_iff_ne] using h.2)]
    simp

theorem splitOnCharAux_append_sep (sep : Char) : ∀ (xs ys acc : List Char),
    xs.all (fun c => !(c == sep)) = true →
    splitOnCharAux sep (xs ++ sep :: ys) acc = (acc.reverse ++ xs) :: splitOnCharAux sep ys []
  | [], ys, acc, _ => by simp [splitOnCharAux]
  | x :: xs, ys, acc, h => by
    simp only [List.all_cons, Bool.and_eq_true, Bool.not_eq_true', beq_eq_false_iff_ne] at h
    rw [List.cons_append, splitOnCharAux, if_neg h.1,
      splitOnCharAux_append_sep sep xs ys (x :: acc) (by simpa [List.all_eq_true, beq_eq_false_iff_ne] using h.2)]
    simp

theorem splitOnCharAux_ne_nil (sep : Char) : ∀ (cs acc : List Char),
    splitOnCharAux sep cs acc ≠ []
  | [], acc => by simp [splitOnCharAux]
  | c :: cs, acc => by
    rw [splitOnCharAux]
    split
    · simp
    · exact splitOnCharAux_ne_nil sep cs (c :: acc)

theorem getLast?_cons_of_ne_nil {α : Type} (a : α) {l : List α} (h : l ≠ []) :
    (a :: l).getLast? = l.getLast? := by
  cases l with
  | nil => exact absurd rfl h
  | cons b l' => rfl

theorem getLast?_splitOnCharAux_append (sep : Char) : ∀ (xs ys acc : List Char),
    (splitOnCharAux sep (xs ++ sep :: ys) acc).getLast? = (splitOnCharAux sep ys []).getLast?
  | [], ys, acc => by
    rw [List.nil_append, splitOnCharAux, if_pos rfl,
      getLast?_cons_of_ne_nil _ (splitOnCharAux_ne_nil sep ys [])]
  | x :: xs, ys, acc => by
    rw [List.cons_append, splitOnCharAux]
    split
    · rw [getLast?_cons_of_ne_nil _ (splitOnCharAux_ne_nil sep (xs ++ sep :: ys) []),
        getLast?_splitOnCharAux_append sep xs ys []]
    · exact getLast?_splitOnCharAux_append sep xs ys (x :: acc)

theorem takeWhile_append_of_all {p : Char → Bool} : ∀ (xs ys : List Char),
    xs.all p = true → (xs ++ ys).takeWhile p = xs ++ ys.takeWhile p
  | [], _, _ => rfl
  | x :: xs, ys, h => by
    simp only [List.all_cons, Bool.and_eq_true] at h
    rw [List.cons_append, List.takeWhile_cons, if_pos h.1,
      takeWhile_append_of_all xs ys h.2, List.cons_append]

theorem afterSlashes_append : ∀ (xs ys : List Char),
    xs.all (fun c => !(c == '/')) = true →
    afterSlashes (xs ++ '/' :: '/' :: ys) = ys
  | [], ys, _ => by
    rw [List.nil_append, afterSlashes_cons_cons, if_pos ⟨rfl, rfl⟩]
  | x :: xs, ys, h => by
    simp only [List.all_cons, Bool.and_eq_true, Bool.not_eq_true', beq_eq_false_iff_ne] at h
    have hrec : afterSlashes (xs ++ '/' :: '/' :: ys) = ys :=
      afterSlashes_append xs ys (by simpa [List.all_eq_true, beq_eq_false_iff_ne] using h.2)
    cases xs with
    | nil =>
      rw [List.cons_append, List.nil_append, afterSlashes_cons_cons,
        if_neg (fun hand => h.1 hand.1)]
      exact hrec
    | cons x2 xs' =>
      rw [List.cons_append, List.cons_append, afterSlashes_cons_cons,
        if_neg (fun hand => h.1 hand.1)]
      rw [List.cons_append] at hrec
      exact hrec

/-! ## Facts about six-digit codes -/

theorem sixDigits_digits {code : String} (h : isSixDigits code = true) :
    code.data.all Char.isDigit = true := by
  simp only [isSixDigits, Bool.and_eq_true] at h
  exact h.2

theorem sixDigits_len {code : String} (h : isSixDigits code = true) :
    code.data.length = 6 := by
  simp only [isSixDigits, Bool.and_eq_true, beq_iff_eq] at h
  exact h.1

theorem sixDigits_ne_empty {code : String} (h : isSixDigits code = true) :
    ¬(code = "") := by
  intro e
  rw [e] at h
  exact absurd h (by decide)

/-! ## Splitting the two API pathnames -/

theorem jsSplitSlash_history (code : String) (h : code.data.all Char.isDigit = true) :
    jsSplitSlash ("/api/fund/history/" ++ code) = ["", "api", "fund", "history", code] := by
  have hd : ("/api/fund/history/" ++ code).data =
      [] ++ '/' :: ("api".data ++ '/' :: ("fund".data ++ '/' :: ("history".data ++ '/' :: code.data))) := rfl
  unfold jsSplitSlash splitOnChar
  rw [hd,
    splitOnCharAux_append_sep '/' [] _ [] (by decide),
    splitOnCharAux_append_sep '/' ("api".data) _ [] (by decide),
    splitOnCharAux_append_sep '/' ("fund".data) _ [] (by decide),
    splitOnCharAux_append_sep '/' ("history".data) _ [] (by decide),
    splitOnCharAux_all_nosep '/' code.data [] (all_digits_no_slash _ h)]
  rfl

theorem jsSplitSlash_fund (code : String) (h : code.data.all Char.isDigit = true) :
    jsSplitSlash ("/api/fund/" ++ code) = ["", "api", "fund", code] := by
  have hd : ("/api/fund/" ++ code).data =
      [] ++ '/' :: ("api".data ++ '/' :: ("fund".data ++ '/' :: code.data)) := rfl
  unfold jsSplitSlash splitOnChar
  rw [hd,
    splitOnCharAux_append_sep '/' [] _ [] (by decide),
    splitOnCharAux_append_sep '/' ("api".data) _ [] (by decide),
    splitOnCharAux_append_sep '/' ("fund".data) _ [] (by decide),
    splitOnCharAux_all_nosep '/' code.data [] (all_digits_no_slash _ h)]
  rfl

theorem startsWith_history_self (code : String) :
    jsStartsWith ("/api/fund/history/" ++ code) "/api/fund/history/" = true := by
  unfold jsStartsWith
  rw [String.data_append]
  exact isPrefixOf_append_self _ _

theorem startsWith_fund_self (code : String) :
    jsStartsWith ("/api/fund/" ++ code) "/api/fund/" = true := by
  unfold jsStartsWith
  rw [String.data_append]
  exact isPrefixOf_append_self _ _

theorem not_startsWith_history (code : String) (h : code.data.all Char.isDigit = true) :
    jsStartsWith ("/api/fund/" ++ code) "/api/fund/history/" = false := by
  unfold jsStartsWith
  rw [String.data_append,
    show ("/api/fund/history/").data = "/api/fund/".data ++ 'h' :: "istory/".data from rfl,
    isPrefixOf_append_same]
  exact digit_isPrefixOf_h_false _ _ h

theorem popPop_five (a b c d e : String) (he : ¬(e = "")) : popPop [a, b, c, d, e] = e := by
  simp [popPop, List.getLast?, he]

theorem lastSeg_four (a b c d : String) : lastSeg [a, b, c, d] = d := by
  simp [lastSeg, List.getLast?]

theorem extname_calc (dirname : String) : extname (dirname ++ "/fund_calculator.html") = ".html" := by
  have hd : (dirname ++ "/fund_calculator.html").data =
      dirname.data ++ '/' :: "fund_calculator.html".data :=
    String.data_append _ _
  unfold extname splitOnChar
  rw [hd, getLast?_splitOnCharAux_append]
  rfl

/-! ## The constructed target URLs: scheme and port -/

theorem startsWith_https_historyUrl (fc : String) (ps : Int) :
    jsStartsWith (historyUrl fc ps) "https" = true := by
  unfold jsStartsWith historyUrl
  rw [String.data_append]
  exact isPrefixOf_append_of_isPrefixOf _ _ _ (by decide)

theorem startsWith_https_snapshotUrl (fc : String) :
    jsStartsWith (snapshotUrl fc) "https" = true := by
  unfold jsStartsWith snapshotUrl
  rw [String.data_append, String.data_append, List.append_assoc]
  exact isPrefixOf_append_of_isPrefixOf _ _ _ (by decide)

theorem hostPortChars_of_shape (host : String) (z : List Char) (u : String)
    (hu : u.data = "https:".data ++ '/' :: '/' :: (host.data ++ '/' :: z))
    (hhost : host.data.all (fun c => !(c == '/')) = true) :
    hostPortChars u = host.data := by
  unfold hostPortChars
  rw [hu, afterSlashes_append _ _ (by decide),
    takeWhile_append_of_all _ _ hhost, List.takeWhile_cons]
  rw [if_neg (by decide)]
  simp

theorem hostPortChars_historyUrl (fc : String) (ps : Int) :
    hostPortChars (historyUrl fc ps) = "fundmobapi.eastmoney.com".data := by
  apply hostPortChars_of_shape _
    ("FundMNewApi/FundMNHisNetList?".data ++
      ("FCODE=" ++ fc ++ "&pageIndex=1&pageSize=" ++ toString ps ++
        "&appType=ttjj&product=EFund&plat=Iphone&version=6.3.8&deviceid=00000000-0000-0000-0000-000000000000").data)
  · unfold historyUrl
    rw [String.data_append,
      show ("https://fundmobapi.eastmoney.com/FundMNewApi/FundMNHisNetList?").data =
        "https:".data ++ '/' :: '/' ::
          ("fundmobapi.eastmoney.com".data ++ '/' :: "FundMNewApi/FundMNHisNetList?".data) from rfl]
    simp [List.append_assoc]
  · decide

theorem hostPortChars_snapshotUrl (fc : String) :
    hostPortChars (snapshotUrl fc) = "fundgz.1234567.com.cn".data := by
  apply hostPortChars_of_shape _ ("js/".data ++ (fc.data ++ ".js".data))
  · unfold snapshotUrl
    rw [String.data_append, String.data_append,
      show ("https://fundgz.1234567.com.cn/js/").data =
        "https:".data ++ '/' :: '/' :: ("fundgz.1234567.com.cn".data ++ '/' :: "js/".data) from rfl]
    simp [List.append_assoc]
  · decide

theorem urlPortOf_historyUrl (fc : String) (ps : Int) : urlPortOf (historyUrl fc ps) = none := by
  unfold urlPortOf
  rw [hostPortChars_historyUrl, if_neg (by decide)]

theorem urlPortOf_snapshotUrl (fc : String) : urlPortOf (snapshotUrl fc) = none := by
  unfold urlPortOf
  rw [hostPortChars_snapshotUrl, if_neg (by decide)]

theorem proxyPort_historyUrl (fc : String) (ps : Int) : proxyPort (historyUrl fc ps) = 443 := by
  unfold proxyPort
  rw [urlPortOf_historyUrl]
  simp [startsWith_https_historyUrl]

theorem proxyPort_snapshotUrl (fc : String) : proxyPort (snapshotUrl fc) = 443 := by
  unfold proxyPort
  rw [urlPortOf_snapshotUrl]
  simp [startsWith_https_snapshotUrl]

theorem schemeOf_historyUrl (fc : String) (ps : Int) : schemeOf (historyUrl fc ps) = .https := by
  unfold schemeOf
  simp [startsWith_https_historyUrl]

theorem schemeOf_snapshotUrl (fc : String) : schemeOf (snapshotUrl fc) = .https := by
  unfold schemeOf
  simp [startsWith_https_snapshotUrl]

/-! ## Handler-level lemmas -/

theorem handle_history (dirname : String) (req : Request) (code : String)
    (hm : ¬(req.method = "OPTIONS")) (hp : req.pathname = "/api/fund/history/" ++ code)
    (hc : isSixDigits code = true) :
    handle dirname req = .proxied (historyUrl code (pageSizeOf req.queryDays)) := by
  have hdig := sixDigits_digits hc
  have hne := sixDigits_ne_empty hc
  unfold handle
  rw [hp, if_neg hm]
  simp [startsWith_history_self, jsSplitSlash_history code hdig, popPop_five, hne, hc]

theorem handle_snapshot (dirname : String) (req : Request) (code : String)
    (hm : ¬(req.method = "OPTIONS")) (hp : req.pathname = "/api/fund/" ++ code)
    (hc : isSixDigits code = true) :
    handle dirname req = .proxied (snapshotUrl code) := by
  have hdig := sixDigits_digits hc
  have hne := sixDigits_ne_empty hc
  unfold handle
  rw [hp, if_neg hm]
  simp [not_startsWith_history code hdig, startsWith_fund_self,
    jsSplitSlash_fund code hdig, lastSeg_four, hne, hc]

theorem handle_proxied_inv (dirname : String) (req : Request) (t : String)
    (h : handle dirname req = .proxied t) :
    (∃ fc, t = historyUrl fc (pageSizeOf req.queryDays)) ∨ (∃ fc, t = snapshotUrl fc) := by
  simp only [handle] at h
  split_ifs at h <;> simp only [HandlerResult.proxied.injEq] at h
  · exact Or.inl ⟨_, h.symm⟩
  · exact Or.inr ⟨_, h.symm⟩

/-! ## Claim theorems -/

/-- Claim C1: for every request to the history route `/api/fund/history/{code}`
with a six-digit code (and a method other than `OPTIONS`, which is answered by
the preflight branch before the route is reached), the handler proxies to the
history URL whose effective `pageSize` is 120 when the `days` query parameter
is absent, non-positive, or non-finite, and otherwise `min(max(days, 60), 365)`. -/
theorem history_pageSize_clamped (dirname : String) (req : Request) (code : String)
    (hm : ¬(req.method = "OPTIONS")) (hp : req.pathname = "/api/fund/history/" ++ code)
    (hc : isSixDigits code = true) :
    handle dirname req = .proxied (historyUrl code (pageSizeOf req.queryDays)) ∧
    (req.queryDays = none → pageSizeOf req.queryDays = 120) ∧
    (∀ d : Int, parseIntJS req.queryDays = .num d → d ≤ 0 → pageSizeOf req.queryDays = 120) ∧
    (parseIntJS req.queryDays = .nan ∨ parseIntJS req.queryDays = .inf ∨
        parseIntJS req.queryDays = .negInf → pageSizeOf req.queryDays = 120) ∧
    (∀ d : Int, parseIntJS req.queryDays = .num d → 0 < d →
        pageSizeOf req.queryDays = min (max d 60) 365) := by
  refine ⟨handle_history dirname req code hm hp hc, ?_, ?_, ?_, ?_⟩
  · intro h
    rw [h]
    rfl
  · intro d hd hle
    unfold pageSizeOf
    rw [hd]
    simp [not_lt.mpr hle]
  · intro h
    unfold pageSizeOf
    rcases h with h | h | h <;> rw [h]
  · intro d hd hdpos
    unfold pageSizeOf
    rw [hd]
    simp [hdpos]

/-- Claim C2: for every six-digit fund code, a non-`OPTIONS` request to
`/api/fund/{code}` (not under the history prefix) is delegated to the proxy
forwarder with exactly the target URL `https://fundgz.1234567.com.cn/js/{code}.js`. -/
theorem snapshot_route_target (dirname : String) (req : Request) (code : String)
    (hm : ¬(req.method = "OPTIONS")) (hp : req.pathname = "/api/fund/" ++ code)
    (hc : isSixDigits code = true) :
    handle dirname req = .proxied ("https://fundgz.1234567.com.cn/js/" ++ code ++ ".js") :=
  handle_snapshot dirname req code hm hp hc

/-- Claim C3: a non-`OPTIONS` request whose path starts with `/api/fund/`
(which subsumes the history prefix) but whose extracted trailing segment is
not six digits is never proxied: the handler falls through to static-file
resolution of the joined path. -/
theorem invalid_code_falls_through (dirname : String) (req : Request)
    (hm : ¬(req.method = "OPTIONS"))
    (hapi : jsStartsWith req.pathname "/api/fund/" = true)
    (hbad : isSixDigits (extractFundCode req.pathname) = false) :
    handle dirname req = .staticFile (staticPath dirname req.pathname) := by
  unfold extractFundCode at hbad
  unfold handle
  rw [if_neg hm]
  by_cases hh : jsStartsWith req.pathname "/api/fund/history/" = true
  · rw [if_pos hh] at hbad ⊢
    simp [hbad]
  · rw [if_neg hh] at hbad
    rw [if_neg hh, if_pos hapi]
    simp [hbad]

/-- Claim C4: every `OPTIONS` request, on any path, is answered directly with
status 200, an empty body and the four CORS headers; no proxying or static
serving occurs. -/
theorem options_preflight (dirname : String) (fs : FileSystem) (req : Request)
    (ev : UpstreamEvent) (hm : req.method = "OPTIONS") :
    handle dirname req = .direct ⟨200, corsHeaders, ""⟩ ∧
    serverResponse dirname fs req ev = .ok ⟨200, corsHeaders, ""⟩ := by
  have h1 : handle dirname req = .direct ⟨200, corsHeaders, ""⟩ := by
    unfold handle
    rw [if_pos hm]
  refine ⟨h1, ?_⟩
  unfold serverResponse
  rw [h1]

/-- Claim C10: every proxy target the router constructs starts with `https`,
so the forwarder always selects the `https` scheme and the default port 443;
the `http`/port-80 branch is unreachable for router-constructed targets. -/
theorem proxy_targets_https_443 (dirname : String) (req : Request) (t : String)
    (h : handle dirname req = .proxied t) :
    jsStartsWith t "https" = true ∧ schemeOf t = .https ∧ proxyPort t = 443 := by
  rcases handle_proxied_inv dirname req t h with ⟨fc, rfl⟩ | ⟨fc, rfl⟩
  · exact ⟨startsWith_https_historyUrl fc _, schemeOf_historyUrl fc _, proxyPort_historyUrl fc _⟩
  · exact ⟨startsWith_https_snapshotUrl fc, schemeOf_snapshotUrl fc, proxyPort_snapshotUrl fc⟩

/-! ## CORS coverage of the terminal responses -/

theorem handle_direct_inv (dirname : String) (req : Request) (r : Response)
    (h : handle dirname req = .direct r) : r = ⟨200, corsHeaders, ""⟩ := by
  simp only [handle] at h
  split_ifs at h <;> injection h with h' <;> exact h'.symm

theorem resolveStatic_cors (fs : FileSystem) (p : String) :
    resolveStatic fs p = notFoundResponse ∨
    ∀ hd ∈ corsHeaders, hd ∈ (resolveStatic fs p).headers := by
  unfold resolveStatic serveStaticFile
  cases hfp : fs p with
  | some fileData =>
    right
    intro hd hm
    exact List.mem_append_left _ hm
  | none =>
    by_cases he : extname p = ""
    · rw [if_pos he]
      cases hfp2 : fs (p ++ ".html") with
      | some fileData2 =>
        right
        intro hd hm
        exact List.mem_append_left _ hm
      | none => left; rfl
    · rw [if_neg he]
      left
      rfl

theorem proxy_response_outcome (s : Nat) (hs : List (String × String)) (b : String) :
    proxyRequestOutcome freshRes (.response s hs b) =
      .ok ⟨true, s, corsHeaders ++ hs, b, true⟩ := rfl

theorem proxy_connectError_outcome (m : String) :
    proxyRequestOutcome freshRes (.connectError m) =
      .ok ⟨true, 500, corsHeaders ++ [("Content-Type", "application/json")],
        proxyErrorBody m, true⟩ := rfl

/-- Claim C5 is false on the code: the `404`/`File not found` response — here
to `GET /missing.png` over an empty filesystem — carries none of the CORS
headers, because neither the handler's 404 branches nor `serveStaticFile`'s
read-error branch call `setCORSHeaders`. -/
theorem cors_on_404_counterexample :
    serverResponse "/srv" (fun _ => none) ⟨"GET", "/missing.png", none⟩ (.connectError "e") =
      .ok notFoundResponse ∧
    ¬(("Access-Control-Allow-Origin", "*") ∈ notFoundResponse.headers) := by
  constructor
  · rfl
  · decide

/-- Claim C5 amended: every response the server sends carries the four CORS
headers, except the `404`/`File not found` responses of the static branch,
which carry only their `Content-Type` header. -/
theorem cors_headers_except_404 (dirname : String) (fs : FileSystem) (req : Request)
    (ev : UpstreamEvent) (res : Response)
    (h : serverResponse dirname fs req ev = .ok res) :
    res = notFoundResponse ∨ ∀ hd ∈ corsHeaders, hd ∈ res.headers := by
  unfold serverResponse at h
  cases hh : handle dirname req with
  | direct r =>
    rw [hh] at h
    simp only [Except.ok.injEq] at h
    right
    rw [← h, handle_direct_inv dirname req r hh]
    exact fun hd hm => hm
  | staticFile p =>
    rw [hh] at h
    simp only [Except.ok.injEq] at h
    rw [← h]
    exact resolveStatic_cors fs p
  | proxied t =>
    rw [hh] at h
    right
    cases ev with
    | response s hs b =>
      rw [proxy_response_outcome] at h
      simp only [Except.map, Except.ok.injEq] at h
      rw [← h]
      intro hd hm
      exact List.mem_append_left _ hm
    | connectError m =>
      rw [proxy_connectError_outcome] at h
      simp only [Except.map, Except.ok.injEq] at h
      rw [← h]
      intro hd hm
      exact List.mem_append_left _ hm

/-- Claim C6: when the resolved static path does not exist, a path without an
extension is retried exactly once with `.html` appended and served when that
exists (404 when not), while a path with an extension is answered `404` /
`File not found` with no `.html` fallback — for every filesystem, including
those where the `.html` candidate exists. -/
theorem static_html_fallback (fs : FileSystem) (p : String) (h : fs p = none) :
    (extname p = "" →
      (∀ fileData, fs (p ++ ".html") = some fileData →
        resolveStatic fs p =
          ⟨200, corsHeaders ++ [("Content-Type", mimeLookup (extname (p ++ ".html")))],
            fileData⟩) ∧
      (fs (p ++ ".html") = none → resolveStatic fs p = notFoundResponse)) ∧
    (¬(extname p = "") → resolveStatic fs p = notFoundResponse) := by
  unfold resolveStatic
  rw [h]
  constructor
  · intro he
    rw [if_pos he]
    constructor
    · intro fileData h2
      rw [h2]
      unfold serveStaticFile
      rw [h2]
    · intro h2
      rw [h2]
  · intro he
    rw [if_neg he]

/-- Claim C7: the root path `/` resolves to the same file as
`/fund_calculator.html`, so — when that file exists — the two requests get
literally the same response: status 200, content type `text/html`, and the
file's bytes. -/
theorem root_serves_calculator (dirname : String) (fs : FileSystem) (m : String)
    (q : Option String) (ev : UpstreamEvent) (fileData : String)
    (hfs : fs (dirname ++ "/fund_calculator.html") = some fileData) :
    serverResponse dirname fs ⟨m, "/", q⟩ ev =
      serverResponse dirname fs ⟨m, "/fund_calculator.html", q⟩ ev ∧
    (¬(m = "OPTIONS") →
      serverResponse dirname fs ⟨m, "/", q⟩ ev =
        .ok ⟨200, corsHeaders ++ [("Content-Type", "text/html")], fileData⟩) := by
  have hpath1 : staticPath dirname "/" = dirname ++ "/fund_calculator.html" :=
    calc staticPath dirname "/" = dirname ++ "/" ++ "fund_calculator.html" := rfl
      _ = dirname ++ ("/" ++ "fund_calculator.html") := String.append_assoc _ _ _
      _ = dirname ++ "/fund_calculator.html" := rfl
  have hpath2 : staticPath dirname "/fund_calculator.html" = dirname ++ "/fund_calculator.html" :=
    rfl
  have hh1 : ¬(m = "OPTIONS") →
      handle dirname ⟨m, "/", q⟩ = .staticFile (dirname ++ "/fund_calculator.html") := by
    intro hm
    unfold handle
    dsimp only
    rw [if_neg hm,
      if_neg (show ¬(jsStartsWith "/" "/api/fund/history/" = true) from by decide),
      if_neg (show ¬(jsStartsWith "/" "/api/fund/" = true) from by decide), hpath1]
  have hh2 : ¬(m = "OPTIONS") →
      handle dirname ⟨m, "/fund_calculator.html", q⟩ =
        .staticFile (dirname ++ "/fund_calculator.html") := by
    intro hm
    unfold handle
    dsimp only
    rw [if_neg hm,
      if_neg (show ¬(jsStartsWith "/fund_calculator.html" "/api/fund/history/" = true) from by decide),
      if_neg (show ¬(jsStartsWith "/fund_calculator.html" "/api/fund/" = true) from by decide),
      hpath2]
  have hserve : resolveStatic fs (dirname ++ "/fund_calculator.html") =
      ⟨200, corsHeaders ++
        [("Content-Type", mimeLookup (extname (dirname ++ "/fund_calculator.html")))],
        fileData⟩ := by
    unfold resolveStatic serveStaticFile
    rw [hfs]
  rw [extname_calc] at hserve
  constructor
  · by_cases hm : m = "OPTIONS"
    · subst hm
      rfl
    · unfold serverResponse
      rw [hh1 hm, hh2 hm]
  · intro hm
    unfold serverResponse
    rw [hh1 hm]
    dsimp only
    rw [hserve]
    rfl

/-- Claim C8: when the upstream connection of a proxied request fails before
any response has been written to the client, the client receives status 500
with content type `application/json`, a JSON body whose `error` key is the
fixed message and whose `message` key is the underlying error text, CORS
headers set, and the stream ends — a single terminal response, never a retry. -/
theorem upstream_error_500_json (errMessage : String) :
    proxyRequestOutcome freshRes (.connectError errMessage) =
      .ok ⟨true, 500, corsHeaders ++ [("Content-Type", "application/json")],
        jsonObj [("error", proxyFailedMessage), ("message", errMessage)], true⟩ := rfl

/-- Claim C9 is false on the code: when the upstream fails after streaming to
the client has begun (headers already sent), the shared error handler does
not merely log and end the stream — its `setHeader` call raises Node's
headers-already-sent error. -/
theorem midstream_error_counterexample :
    proxyOnError ⟨true, 200, corsHeaders, "partial", false⟩ "read ECONNRESET" =
      .error headersSentError ∧
    ¬(proxyOnError ⟨true, 200, corsHeaders, "partial", false⟩ "read ECONNRESET" =
      .ok (endRes ⟨true, 200, corsHeaders, "partial", false⟩ "")) := by
  constructor
  · rfl
  · intro hcontra
    rw [show proxyOnError ⟨true, 200, corsHeaders, "partial", false⟩ "read ECONNRESET" =
        .error headersSentError from rfl] at hcontra
    exact Except.noConfusion hcontra

/-- Claim C9 amended: when the upstream connection fails after the response
head has been sent to the client, the error handler still runs the same path
as the pre-headers case; its attempt to set CORS headers on the already-sent
response raises the headers-already-sent error, and no further status,
headers, or body reach the client through it. -/
theorem midstream_error_raises (res : ResState) (errMessage : String)
    (h : res.headersSent = true) :
    proxyOnError res errMessage = .error headersSentError := by
  simp only [proxyOnError, setCORSHeaders, setHeader, h, if_true]
  rfl

/-! ## Witnesses -/

theorem history_pageSize_clamped_witness :
    handle "/srv" ⟨"GET", "/api/fund/history/123456", some "30"⟩ =
      .proxied (historyUrl "123456" (pageSizeOf (some "30"))) :=
  (history_pageSize_clamped "/srv" ⟨"GET", "/api/fund/history/123456", some "30"⟩ "123456"
    (by decide) rfl (by decide)).1

theorem snapshot_route_target_witness :
    handle "/srv" ⟨"GET", "/api/fund/654321", none⟩ =
      .proxied ("https://fundgz.1234567.com.cn/js/" ++ "654321" ++ ".js") :=
  snapshot_route_target "/srv" ⟨"GET", "/api/fund/654321", none⟩ "654321" (by decide) rfl
    (by decide)

theorem invalid_code_falls_through_witness :
    handle "/srv" ⟨"GET", "/api/fund/abc", none⟩ = .staticFile (staticPath "/srv" "/api/fund/abc") :=
  invalid_code_falls_through "/srv" ⟨"GET", "/api/fund/abc", none⟩ (by decide) (by decide)
    (by decide)

theorem options_preflight_witness :
    handle "/srv" ⟨"OPTIONS", "/any/path", none⟩ = .direct ⟨200, corsHeaders, ""⟩ ∧
    serverResponse "/srv" (fun _ => none) ⟨"OPTIONS", "/any/path", none⟩ (.connectError "x") =
      .ok ⟨200, corsHeaders, ""⟩ :=
  options_preflight "/srv" (fun _ => none) ⟨"OPTIONS", "/any/path", none⟩ (.connectError "x") rfl

theorem cors_headers_except_404_witness :
    notFoundResponse = notFoundResponse ∨
      ∀ hd ∈ corsHeaders, hd ∈ notFoundResponse.headers :=
  cors_headers_except_404 "/srv" (fun _ => none) ⟨"GET", "/missing.png", none⟩
    (.connectError "x") notFoundResponse rfl

/-- A filesystem with the single file `/srv/about.html`. -/
def fsAbout : FileSystem :=
  fun q => if q = "/srv/about.html" then some "ABOUT PAGE" else none

theorem static_html_fallback_witness :
    resolveStatic fsAbout "/srv/about" =
      ⟨200, corsHeaders ++ [("Content-Type", mimeLookup (extname ("/srv/about" ++ ".html")))],
        "ABOUT PAGE"⟩ :=
  ((static_html_fallback fsAbout "/srv/about" rfl).1 rfl).1 "ABOUT PAGE" rfl

/-- A filesystem with the single file `/srv/fund_calculator.html`. -/
def fsCalc : FileSystem :=
  fun q => if q = "/srv/fund_calculator.html" then some "CALC" else none

theorem root_serves_calculator_witness :
    serverResponse "/srv" fsCalc ⟨"GET", "/", none⟩ (.connectError "x") =
      serverResponse "/srv" fsCalc ⟨"GET", "/fund_calculator.html", none⟩ (.connectError "x") ∧
    serverResponse "/srv" fsCalc ⟨"GET", "/", none⟩ (.connectError "x") =
      .ok ⟨200, corsHeaders ++ [("Content-Type", "text/html")], "CALC"⟩ := by
  have h := root_serves_calculator "/srv" fsCalc "GET" none (.connectError "x") "CALC" rfl
  exact ⟨h.1, h.2 (by decide)⟩

theorem midstream_error_raises_witness :
    proxyOnError ⟨true, 200, corsHeaders, "chunk", false⟩ "socket hang up" =
      .error headersSentError :=
  midstream_error_raises ⟨true, 200, corsHeaders, "chunk", false⟩ "socket hang up" rfl

theorem proxy_targets_https_443_witness :
    jsStartsWith "https://fundgz.1234567.com.cn/js/123456.js" "https" = true ∧
    schemeOf "https://fundgz.1234567.com.cn/js/123456.js" = .https ∧
    proxyPort "https://fundgz.1234567.com.cn/js/123456.js" = 443 :=
  proxy_targets_https_443 "/srv" ⟨"GET", "/api/fund/123456", none⟩
    "https://fundgz.1234567.com.cn/js/123456.js" rfl

end FundProxy
